import Mathlib

/-!
Verification development for the storage/upload coordination layer of a
matrix media repository. The Go source is shallowly embedded: pure control
flow becomes Lean functions, the process-wide waiter registry becomes an
explicit state value threaded through the operations, and the results of
external calls (database, storage backend, filesystem) are supplied through
explicit environment records. Go channels are modelled by identifiers
(`Chan := Nat`) together with a closed-set, so that `close` of an already
closed channel can be observed as the runtime panic it is in Go.
-/

namespace MMR

/-- Outcome of running a piece of Go code that can panic. -/
inductive GoOutcome (α : Type) where
  | ok (a : α)
  | panicked
deriving DecidableEq, Repr

/-- Channel identifier standing for a Go `chan struct{}` value. -/
abbrev Chan := Nat

/-- The notifier's shared state from src/util/upload_notifier.go: the
package-level `waiters` map from key (`origin + mediaID`) to the set of
registered channels, modelled as an association list, plus the set of
channels that have been closed (Go panics when a channel is closed twice). -/
structure NotifierState where
  waiters : List (String × List Chan)
  closed : List Chan
deriving DecidableEq, Repr

/-- Go map lookup `waiters[key]` on the association-list model: first entry
with the key (entries are unique in any state reachable from the empty map). -/
def lookupSet (ws : List (String × List Chan)) (key : String) : Option (List Chan) :=
  match ws with
  | [] => none
  | (k, s) :: rest => if k = key then some s else lookupSet rest key

/-- Go map write `waiters[key] = s`: replaces the entry for the key, or adds
one if absent. -/
def setEntry (ws : List (String × List Chan)) (key : String) (s : List Chan) :
    List (String × List Chan) :=
  match ws with
  | [] => [(key, s)]
  | (k, t) :: rest => if k = key then (key, s) :: rest else (k, t) :: setEntry rest key s

/-- Go map delete `delete(waiters, key)`. -/
def removeEntry (ws : List (String × List Chan)) (key : String) :
    List (String × List Chan) :=
  ws.filter (fun e => e.1 ≠ key)

/-- The channels currently registered for a key (empty when the key is absent). -/
def waiterSet (st : NotifierState) (key : String) : List Chan :=
  (lookupSet st.waiters key).getD []

/-- Go set insert `set[ch] = struct{}{}`: idempotent. -/
def insertChan (s : List Chan) (ch : Chan) : List Chan :=
  if ch ∈ s then s else s ++ [ch]

/-- Go `close(ch)`: panics when the channel is already closed, otherwise
records it as closed. -/
def closeChan (st : NotifierState) (ch : Chan) : GoOutcome NotifierState :=
  if ch ∈ st.closed then GoOutcome.panicked
  else GoOutcome.ok { st with closed := ch :: st.closed }

/-- Embeds `StartWaitForUpload` (src/util/upload_notifier.go): under the lock,
lazily creates the key's waiter set and registers the freshly made channel.
The Go code allocates the channel with `make(chan struct{})`; the model takes
the fresh identifier `ch` as a parameter. -/
def StartWaitForUpload (st : NotifierState) (origin mediaID : String) (ch : Chan) :
    NotifierState :=
  let key := origin ++ mediaID
  let s := (lookupSet st.waiters key).getD []
  { st with waiters := setEntry st.waiters key (insertChan s ch) }

/-- Embeds `CancelWaitForUpload` (src/util/upload_notifier.go): when the key
has no waiter set, returns doing nothing; otherwise deletes the handle from
the set, closes the channel (unconditionally — this panics when the channel
was already closed), and drops the key when the set became empty. -/
def CancelWaitForUpload (st : NotifierState) (ch : Chan) (origin mediaID : String) :
    GoOutcome NotifierState :=
  let key := origin ++ mediaID
  match lookupSet st.waiters key with
  | none => GoOutcome.ok st
  | some s =>
    let s1 := s.erase ch
    match closeChan { st with waiters := setEntry st.waiters key s1 } ch with
    | GoOutcome.panicked => GoOutcome.panicked
    | GoOutcome.ok st2 =>
      GoOutcome.ok (if s1 = [] then { st2 with waiters := removeEntry st2.waiters key } else st2)

/-- Embeds `WaitForUpload` (src/util/upload_notifier.go). First phase (under
the lock): lazily create an empty set when the key is absent (the code does
not insert `ch` here — `StartWaitForUpload` did). Then the `select` blocks
until the channel is signalled or the timeout fires; the oracle `signaled`
says which branch is taken and is the returned boolean. The deferred block
(again under the lock) deletes the handle from the captured set, closes the
channel, and drops the key when the set became empty. -/
def WaitForUpload (st : NotifierState) (ch : Chan) (origin mediaID : String)
    (signaled : Bool) : GoOutcome (Bool × NotifierState) :=
  let key := origin ++ mediaID
  let ws0 := match lookupSet st.waiters key with
    | none => setEntry st.waiters key []
    | some _ => st.waiters
  let s := (lookupSet ws0 key).getD []
  let s1 := s.erase ch
  match closeChan { st with waiters := setEntry ws0 key s1 } ch with
  | GoOutcome.panicked => GoOutcome.panicked
  | GoOutcome.ok st2 =>
    GoOutcome.ok (signaled,
      if s1 = [] then { st2 with waiters := removeEntry st2.waiters key } else st2)

/-- Embeds `NotifyUpload` (src/util/upload_notifier.go): under the lock, looks
up the key's set and sends on every channel in it; an absent (nil) set means
return at once. The function never modifies the map. The returned list is the
set of channels the loop sends on; whether each send can complete is a
blocking question modelled separately by the interleaving system below. -/
def NotifyUpload (st : NotifierState) (origin mediaID : String) :
    List Chan × NotifierState :=
  match lookupSet st.waiters (origin ++ mediaID) with
  | none => ([], st)
  | some s => (s, st)

/-- Registering a batch of waiters one by one via `StartWaitForUpload`. -/
def startWaitAll (st : NotifierState) (origin mediaID : String) (chs : List Chan) :
    NotifierState :=
  chs.foldl (fun s c => StartWaitForUpload s origin mediaID c) st

/-!
Interleaving model for the blocking behaviour of `NotifyUpload`. Two threads
run against the shared notifier state: a handle owner that called
`StartWaitForUpload` and now abandons waiting by calling
`CancelWaitForUpload` (the use the spec itself names for cancel), and a
notifier running `NotifyUpload`. The canceler's only blocking operation is
`waiterLock.Lock()`, so its whole body is one atomic step once the lock is
free. The notifier must be split: it acquires the lock, reads the set, and
then performs one unbuffered channel send per handle while still holding the
lock; an unbuffered send can only complete together with a receiver.
-/

/-- Program counter of the canceling owner thread. -/
inductive CancelerPC where
  | beforeLock
  | done
deriving DecidableEq, Repr

/-- Program counter of the notifier thread; `sending pend` holds the channels
still to be sent on, with the registry lock held. -/
inductive NotifierPC where
  | beforeLock
  | sending (pend : List Chan)
  | done
deriving DecidableEq, Repr

/-- A configuration of the two-thread system. -/
structure SysConfig where
  st : NotifierState
  lockHeldByNotifier : Bool
  canceler : CancelerPC
  notifier : NotifierPC
  cancelerCh : Chan
  origin : String
  mediaID : String
deriving DecidableEq, Repr

/-- Whether some thread of the system is currently blocked receiving on `ch`.
`CancelWaitForUpload` performs no channel receive — its only blocking
operation is `waiterLock.Lock()` — so in this two-thread system no receiver
is ever ready for the notifier's sends. -/
def receiverReady (_c : SysConfig) (_ch : Chan) : Bool := false

/-- Enabled moves of the canceling owner: `waiterLock.Lock()` blocks while
the notifier holds the lock; once acquired, the cancel body runs to
completion and releases the lock in the same step. -/
def cancelerSteps (c : SysConfig) : List SysConfig :=
  match c.canceler with
  | CancelerPC.beforeLock =>
    if c.lockHeldByNotifier then []
    else
      match CancelWaitForUpload c.st c.cancelerCh c.origin c.mediaID with
      | GoOutcome.ok st2 => [{ c with st := st2, canceler := CancelerPC.done }]
      | GoOutcome.panicked => []
  | CancelerPC.done => []

/-- Enabled moves of the notifier: acquire the lock and snapshot the key's
set; send on the next pending channel only when a receiver is ready (Go's
unbuffered send is a rendezvous); release the lock when no send is pending. -/
def notifierSteps (c : SysConfig) : List SysConfig :=
  match c.notifier with
  | NotifierPC.beforeLock =>
    if c.lockHeldByNotifier then []
    else
      [{ c with lockHeldByNotifier := true,
                notifier := NotifierPC.sending (NotifyUpload c.st c.origin c.mediaID).1 }]
  | NotifierPC.sending [] =>
    [{ c with lockHeldByNotifier := false, notifier := NotifierPC.done }]
  | NotifierPC.sending (ch :: rest) =>
    if receiverReady c ch then [{ c with notifier := NotifierPC.sending rest }] else []
  | NotifierPC.done => []

/-- All enabled moves of a configuration: an empty list means the system is
stuck (every thread is blocked forever, since enabledness depends only on
the configuration). -/
def sysSteps (c : SysConfig) : List SysConfig :=
  cancelerSteps c ++ notifierSteps c

/-- Initial configuration: the owner has registered channel 7 for key
`"o" ++ "m"` via `StartWaitForUpload` and is about to cancel; the notifier is
about to run `NotifyUpload` for the same key. -/
def deadlockInit : SysConfig :=
  { st := StartWaitForUpload ⟨[], []⟩ "o" "m" 7,
    lockHeldByNotifier := false,
    canceler := CancelerPC.beforeLock,
    notifier := NotifierPC.beforeLock,
    cancelerCh := 7,
    origin := "o",
    mediaID := "m" }

/-- The configuration reached when the notifier wins the race for the lock:
it holds the lock and is blocked sending on channel 7. -/
def deadlockStuck : SysConfig :=
  { deadlockInit with
    lockHeldByNotifier := true,
    notifier := NotifierPC.sending [7] }

/-!
The upload-complete handler, src/api/r0/upload.go `UploadComplete`. The
database, datastore-location and stat calls are external collaborators whose
results are supplied through an environment record; the handler's control
flow is embedded line by line. The background sha256 goroutine is detached
best-effort work and is not part of the handler's returned effects.
-/

/-- A media record as used by `UploadComplete` (types.Media fields the
handler touches). -/
structure MediaRecord where
  origin : String
  mediaId : String
  contentType : String
  sizeBytes : Int
  datastoreId : String
  location : String
  sha256Hash : String
deriving DecidableEq, Repr

/-- Backend-reported object metadata (minio.ObjectInfo fields the handler
reads). -/
structure StatInfo where
  size : Int
  contentType : String
deriving DecidableEq, Repr

/-- The discrete outcomes `UploadComplete` returns to the API layer. -/
inductive ApiOutcome where
  | notFound
  | internalError
  | emptySuccess
  | uploadedResponse (contentUri : String)
deriving DecidableEq, Repr

/-- Results of the external calls `UploadComplete` makes, in program order:
the server-ownership checks, `db.Get`, `datastore.LocateDatastore`,
`ds.ObjectInfo` and `db.Update`. -/
structure UploadCompleteEnv where
  serverOurs : Bool
  hostMatches : Bool
  dbGet : Option MediaRecord
  locateOk : Bool
  objectInfo : Option StatInfo
  updateOk : Bool
deriving DecidableEq, Repr

/-- Which externally visible actions the handler performed: a backend stat,
a record update, a registry notification. -/
structure UploadCompleteEffects where
  statted : Bool
  updated : Bool
  notified : Bool
deriving DecidableEq, Repr

/-- No external action taken. -/
def noEffects : UploadCompleteEffects :=
  { statted := false, updated := false, notified := false }

/-- The `mxc://origin/mediaId` content URI (types.Media.MxcUri). -/
def mxcUri (m : MediaRecord) : String :=
  "mxc://" ++ m.origin ++ "/" ++ m.mediaId

/-- Embeds `UploadComplete` (src/api/r0/upload.go): reject foreign servers,
404 an unknown record or one with no location, treat an already finalized
record (`sizeBytes > 0`) as an empty success without touching anything, and
otherwise stat the backend object, update the record and notify waiters. -/
def UploadComplete (server : String) (_mediaId : String) (env : UploadCompleteEnv) :
    ApiOutcome × UploadCompleteEffects :=
  if server ≠ "" ∧ (env.serverOurs = false ∨ env.hostMatches = false) then
    (ApiOutcome.notFound, noEffects)
  else
    match env.dbGet with
    | none => (ApiOutcome.notFound, noEffects)
    | some media =>
      if media.location = "" then (ApiOutcome.notFound, noEffects)
      else if media.sizeBytes > 0 then (ApiOutcome.emptySuccess, noEffects)
      else if env.locateOk = false then (ApiOutcome.internalError, noEffects)
      else
        match env.objectInfo with
        | none => (ApiOutcome.internalError, { noEffects with statted := true })
        | some info =>
          if env.updateOk = false then
            (ApiOutcome.internalError, { statted := true, updated := false, notified := false })
          else
            (ApiOutcome.uploadedResponse
               (mxcUri { media with contentType := info.contentType, sizeBytes := info.size }),
             { statted := true, updated := true, notified := true })

/-!
Datastore facade operations. `DatastoreRef.ObjectExists` and
`DatastoreRef.GetDownloadURL` come from the datastore reference file
(src/unnamed/part_000), `s3Datastore.ObjectExists` from the s3 backend
(src/unnamed/part_001), and `DownloadOrRedirect` from
src/datastores/download.go. Backend calls are again environment-supplied.
-/

/-- Embeds `s3Datastore.ObjectExists` (src/unnamed/part_001): a `StatObject`
error collapses to `false`; a successful stat yields `stat.Size > 0`. The
model's `s3Stat` is `none` for a stat error and `some size` otherwise. -/
def s3ObjectExists (s3Stat : Option Int) : Bool :=
  match s3Stat with
  | none => false
  | some size => size > 0

/-- Results of the backend calls `DatastoreRef.ObjectExists` can make:
`util.FileExists` (`none` = error), `GetOrCreateS3Datastore` success, and the
s3 stat fed to `s3ObjectExists`. -/
structure ExistsEnv where
  fileExists : Option Bool
  s3Created : Bool
  s3Stat : Option Int
deriving DecidableEq, Repr

/-- Embeds `DatastoreRef.ObjectExists` (src/unnamed/part_000): file backend
errors collapse to false, an s3 datastore that cannot be constructed yields
false, ipfs is unsupported and yields false, and any other type string hits
`panic("unknown datastore type")`. -/
def ObjectExists (dsType : String) (env : ExistsEnv) (_location : String) :
    GoOutcome Bool :=
  if dsType = "file" then
    match env.fileExists with
    | none => GoOutcome.ok false
    | some b => GoOutcome.ok b
  else if dsType = "s3" then
    if env.s3Created = false then GoOutcome.ok false
    else GoOutcome.ok (s3ObjectExists env.s3Stat)
  else if dsType = "ipfs" then GoOutcome.ok false
  else GoOutcome.panicked

/-- The s3 client configuration fields `DownloadOrRedirect`
(src/datastores/download.go) reads. -/
structure S3Cfg where
  publicBaseUrl : String
  redirectPresignURL : Bool
deriving DecidableEq, Repr

/-- What the download path produced for the caller. -/
inductive DownloadResult where
  | redirectTo (url : String)
  | streamed
  | failed
deriving DecidableEq, Repr

/-- Embeds `DownloadOrRedirect` (src/datastores/download.go): non-s3 stores
stream; with an s3 store, a configured public base URL redirects to
`publicBaseUrl + dsFileName` (plain `%s%s` concatenation); else a presigned
redirect when configured (the presigned URL, with any host rewrite already
applied, comes from the environment); else stream. `s3cfg = none` stands for
a `getS3` construction error. -/
def DownloadOrRedirect (dsType : String) (s3cfg : Option S3Cfg)
    (presigned : Option String) (dsFileName : String) : DownloadResult :=
  if dsType ≠ "s3" then DownloadResult.streamed
  else
    match s3cfg with
    | none => DownloadResult.failed
    | some c =>
      if c.publicBaseUrl ≠ "" then
        DownloadResult.redirectTo (c.publicBaseUrl ++ dsFileName)
      else if c.redirectPresignURL then
        match presigned with
        | none => DownloadResult.failed
        | some u => DownloadResult.redirectTo u
      else DownloadResult.streamed

/-- Embeds `DatastoreRef.GetDownloadURL` (src/unnamed/part_000): only s3
supports download URLs; when the datastore options carry a `publicPrefix`,
the result is `fmt.Sprintf("%s/%s", publicPrefix, filename)` — the prefix, a
slash, and the requested filename (not the object's location); otherwise the
presigned URL from `s3.GetDownloadURL` (environment-supplied). `none` stands
for an error return. -/
def GetDownloadURL (dsType : String) (s3ok : Bool) (publicPrefixOpt : Option String)
    (presignResult : Option String) (_location filename : String) : Option String :=
  if dsType ≠ "s3" then none
  else if s3ok = false then none
  else
    match publicPrefixOpt with
    | some p => some (p ++ "/" ++ filename)
    | none => presignResult

/-!
The s3 streaming upload pipeline, `s3Datastore.UploadFile`
(src/unnamed/part_001). The incoming stream is tee'd: the digest goroutine
reads the original stream through the tee (seeing every input byte) while
the upload goroutine consumes the duplicated pipe. The model sequentialises
that dataflow — both tasks observe the same byte sequence — and supplies the
results of filesystem, backend and hashing calls through an environment.
Bytes are `List Nat`; the digest function is a parameter, applied to exactly
the bytes the digest goroutine reads.
-/

/-- The descriptor `UploadFile` builds (types.ObjectInfo). -/
structure ObjectInfo where
  location : String
  sha256Hash : String
  sizeBytes : Int
deriving DecidableEq, Repr

/-- Results of the external calls inside `UploadFile`, in program order:
`ioutil.TempFile`, `io.Copy` onto the temp file (`copied` is the count the
partial copy wrote when `copyErr` is set; `io.Copy` returns the full length
on success), `os.Open` of the temp file, `PutObject`, and the digest
computation. Error values are carried as strings so the theorems can state
which error the pipeline reports. -/
structure UploadEnv where
  tempCreateErr : Option String
  copyErr : Option String
  copied : Nat
  reopenErr : Option String
  putErr : Option String
  hashErr : Option String
deriving DecidableEq, Repr

/-- What the upload goroutine did: its error, the byte count `PutObject`
reported, the stream and declared length handed to `PutObject` (`none` when
the backend was never called), and the temp-file events. -/
structure UpTask where
  uploadErr : Option String
  sizeBytes : Int
  backendPut : Option (List Nat × Int)
  tempCreated : Bool
  tempRemoved : Bool
deriving DecidableEq, Repr

/-- The upload goroutine of `UploadFile`. Unknown length with a temp path:
create a temp file (on failure, drain the pipe and stop), register its
removal, drain the stream into it — `io.Copy`'s count becomes the new
expected length and its error lands in `uploadErr` but is overwritten by the
following `os.Open` result — then reopen and upload the file with the learned
length. Unknown length without a temp path: declare length -1 and stream.
Known length: stream directly. On a successful put the reported size is the
length of the stream the backend consumed. -/
def runUploadTask (bytes : List Nat) (expectedLength : Int) (tempPath : String)
    (env : UploadEnv) : UpTask :=
  if expectedLength ≤ 0 then
    if tempPath ≠ "" then
      match env.tempCreateErr with
      | some e =>
        { uploadErr := some e, sizeBytes := 0, backendPut := none,
          tempCreated := false, tempRemoved := false }
      | none =>
        let copiedCount : Nat := if env.copyErr = none then bytes.length
                                 else min env.copied bytes.length
        let tempContent := bytes.take copiedCount
        match env.reopenErr with
        | some e =>
          { uploadErr := some e, sizeBytes := 0, backendPut := none,
            tempCreated := true, tempRemoved := true }
        | none =>
          match env.putErr with
          | some e =>
            { uploadErr := some e, sizeBytes := 0,
              backendPut := some (tempContent, Int.ofNat copiedCount),
              tempCreated := true, tempRemoved := true }
          | none =>
            { uploadErr := none, sizeBytes := Int.ofNat tempContent.length,
              backendPut := some (tempContent, Int.ofNat copiedCount),
              tempCreated := true, tempRemoved := true }
    else
      match env.putErr with
      | some e =>
        { uploadErr := some e, sizeBytes := 0, backendPut := some (bytes, -1),
          tempCreated := false, tempRemoved := false }
      | none =>
        { uploadErr := none, sizeBytes := Int.ofNat bytes.length,
          backendPut := some (bytes, -1), tempCreated := false, tempRemoved := false }
  else
    match env.putErr with
    | some e =>
      { uploadErr := some e, sizeBytes := 0,
        backendPut := some (bytes, expectedLength),
        tempCreated := false, tempRemoved := false }
    | none =>
      { uploadErr := none, sizeBytes := Int.ofNat bytes.length,
        backendPut := some (bytes, expectedLength),
        tempCreated := false, tempRemoved := false }

/-- The whole pipeline run: the result (`Except.error` carries the reported
error string), the locations passed to `DeleteObject`, and the upload task's
observable events. -/
structure UploadRun where
  result : Except String ObjectInfo
  deleted : List String
  backendPut : Option (List Nat × Int)
  tempCreated : Bool
  tempRemoved : Bool
deriving Repr

/-- Embeds `s3Datastore.UploadFile` (src/unnamed/part_001): generate an
object key (passed in as `objectName`), run the digest task and the upload
task over the tee'd stream, join both, then: a digest failure deletes the
written object and is the reported error; otherwise an upload failure is
reported; otherwise the descriptor is returned. The Go `hash` variable is
its zero value `""` when hashing failed. -/
def s3UploadFile (bytes : List Nat) (expectedLength : Int) (tempPath : String)
    (objectName : String) (hashFn : List Nat → String) (env : UploadEnv) : UploadRun :=
  let hashVal : String := if env.hashErr = none then hashFn bytes else ""
  let up := runUploadTask bytes expectedLength tempPath env
  let obj : ObjectInfo :=
    { location := objectName, sha256Hash := hashVal, sizeBytes := up.sizeBytes }
  match env.hashErr with
  | some e =>
    { result := Except.error e, deleted := [objectName], backendPut := up.backendPut,
      tempCreated := up.tempCreated, tempRemoved := up.tempRemoved }
  | none =>
    match up.uploadErr with
    | some e =>
      { result := Except.error e, deleted := [], backendPut := up.backendPut,
        tempCreated := up.tempCreated, tempRemoved := up.tempRemoved }
    | none =>
      { result := Except.ok obj, deleted := [], backendPut := up.backendPut,
        tempCreated := up.tempCreated, tempRemoved := up.tempRemoved }

/-! Concrete inputs used by counterexamples and witnesses. -/

/-- A record that is already finalized (`sizeBytes = 5 > 0`) but carries an
empty `location`. -/
def c1Record : MediaRecord :=
  { origin := "localhost", mediaId := "abc", contentType := "text/plain",
    sizeBytes := 5, datastoreId := "ds1", location := "", sha256Hash := "" }

/-- An environment in which every external call around `UploadComplete`
succeeds and `db.Get` finds `c1Record`. -/
def c1Env : UploadCompleteEnv :=
  { serverOurs := true, hostMatches := true, dbGet := some c1Record,
    locateOk := true, objectInfo := some { size := 5, contentType := "text/plain" },
    updateOk := true }

/-- The same record with a non-empty `location`, i.e. properly reserved. -/
def c1RecordLoc : MediaRecord :=
  { c1Record with location := "ab/cd" }

/-- The same environment finding the properly reserved record. -/
def c1EnvLoc : UploadCompleteEnv :=
  { c1Env with dbGet := some c1RecordLoc }

/-- A pipeline environment in which both the digest task and the upload task
fail. -/
def c8Env : UploadEnv :=
  { tempCreateErr := none, copyErr := none, copied := 0, reopenErr := none,
    putErr := some "put failed", hashErr := some "hash failed" }

/-- A pipeline environment in which every external call succeeds. -/
def c9Env : UploadEnv :=
  { tempCreateErr := none, copyErr := none, copied := 0, reopenErr := none,
    putErr := none, hashErr := none }

/-- A concrete stand-in for the sha256 digest function. -/
def c9Hash : List Nat → String := fun _ => "d"

/-! Helper lemmas about the registry's association-list operations. -/

theorem lookupSet_setEntry_self (ws : List (String × List Chan)) (key : String)
    (s : List Chan) : lookupSet (setEntry ws key s) key = some s := by
  induction ws with
  | nil => simp [setEntry, lookupSet]
  | cons e rest ih =>
    obtain ⟨k, t⟩ := e
    by_cases h : k = key
    · simp [setEntry, h, lookupSet]
    · simp [setEntry, h, lookupSet, ih]

theorem lookupSet_removeEntry_self (ws : List (String × List Chan)) (key : String) :
    lookupSet (removeEntry ws key) key = none := by
  induction ws with
  | nil => simp [removeEntry, lookupSet]
  | cons e rest ih =>
    obtain ⟨k, t⟩ := e
    by_cases h : k = key
    · simpa [removeEntry, h] using ih
    · simpa [removeEntry, lookupSet, h] using ih

theorem mem_insertChan_self (s : List Chan) (ch : Chan) : ch ∈ insertChan s ch := by
  unfold insertChan
  split <;> simp_all

theorem mem_insertChan_of_mem (s : List Chan) (c ch : Chan) (h : ch ∈ s) :
    ch ∈ insertChan s c := by
  unfold insertChan
  split <;> simp_all

theorem waiterSet_start (st : NotifierState) (o m : String) (ch : Chan) :
    waiterSet (StartWaitForUpload st o m ch) (o ++ m)
      = insertChan (waiterSet st (o ++ m)) ch := by
  unfold StartWaitForUpload waiterSet
  simp [lookupSet_setEntry_self]

theorem notifyUpload_fst (st : NotifierState) (o m : String) :
    (NotifyUpload st o m).1 = waiterSet st (o ++ m) := by
  unfold NotifyUpload waiterSet
  cases h : lookupSet st.waiters (o ++ m) <;> simp [h]

theorem mem_waiterSet_startWaitAll (o m : String) (chs : List Chan) :
    ∀ (st : NotifierState) (ch : Chan),
      ch ∈ chs ∨ ch ∈ waiterSet st (o ++ m) →
      ch ∈ waiterSet (startWaitAll st o m chs) (o ++ m) := by
  induction chs with
  | nil =>
    intro st ch h
    simpa [startWaitAll] using h.resolve_left (by simp)
  | cons c rest ih =>
    intro st ch h
    have hstep : startWaitAll st o m (c :: rest)
        = startWaitAll (StartWaitForUpload st o m c) o m rest := rfl
    rw [hstep]
    apply ih
    rcases h with h | h
    · rcases List.mem_cons.mp h with h | h
      · right
        rw [h, waiterSet_start]
        exact mem_insertChan_self _ _
      · left
        exact h
    · right
      rw [waiterSet_start]
      exact mem_insertChan_of_mem _ _ _ h

/-- The full behaviour of one `WaitForUpload` call on a registry whose key
holds a duplicate-free set and whose channel is not yet closed: the call
returns the select's outcome, removes the handle from the key's set, and
removes the key itself exactly when the set became empty. -/
theorem waitForUpload_spec (st : NotifierState) (ch : Chan) (o m : String)
    (sig : Bool) (hcl : ch ∉ st.closed) (hnd : (waiterSet st (o ++ m)).Nodup) :
    ∃ st2, WaitForUpload st ch o m sig = GoOutcome.ok (sig, st2)
      ∧ ch ∉ waiterSet st2 (o ++ m)
      ∧ ((waiterSet st (o ++ m)).erase ch = [] →
           lookupSet st2.waiters (o ++ m) = none)
      ∧ ((waiterSet st (o ++ m)).erase ch ≠ [] →
           lookupSet st2.waiters (o ++ m) = some ((waiterSet st (o ++ m)).erase ch)) := by
  unfold WaitForUpload
  simp only [closeChan, if_neg hcl]
  have hs : ∀ h : Option (List Chan), h = lookupSet st.waiters (o ++ m) →
      (lookupSet
        (match h with
          | none => setEntry st.waiters (o ++ m) []
          | some _ => st.waiters) (o ++ m)).getD []
        = waiterSet st (o ++ m) := by
    intro h hh
    cases h with
    | none => simp [lookupSet_setEntry_self, waiterSet, ← hh]
    | some v => simp [waiterSet, ← hh]
  rw [hs _ rfl]
  by_cases hemp : (waiterSet st (o ++ m)).erase ch = []
  · rw [if_pos hemp]
    refine ⟨_, rfl, ?_, fun _ => ?_, fun hne => absurd hemp hne⟩
    · simp [waiterSet, lookupSet_removeEntry_self]
    · simp [lookupSet_removeEntry_self]
  · rw [if_neg hemp]
    refine ⟨_, rfl, ?_, fun heq => absurd heq hemp, fun _ => ?_⟩
    · simp only [waiterSet, lookupSet_setEntry_self, Option.getD_some]
      exact fun hmem => ((List.Nodup.mem_erase_iff hnd).mp hmem).1 rfl
    · simp [lookupSet_setEntry_self]

/-! The claims' theorems. -/

/-- C2: a `NotifyUpload` for a key signals every handle registered for it via
`StartWaitForUpload` before the call, signals no handle that was not yet
registered when it ran, and is a state-preserving no-op when no set exists
for the key. -/
theorem notifyUpload_signals_exactly_registered :
    (∀ (st : NotifierState) (o m : String) (chs : List Chan) (ch : Chan),
        ch ∈ chs → ch ∈ (NotifyUpload (startWaitAll st o m chs) o m).1)
    ∧ (∀ (st : NotifierState) (o m : String) (ch : Chan),
        ch ∉ waiterSet st (o ++ m) → ch ∉ (NotifyUpload st o m).1)
    ∧ (∀ (st : NotifierState) (o m : String),
        lookupSet st.waiters (o ++ m) = none → NotifyUpload st o m = ([], st)) := by
  refine ⟨fun st o m chs ch h => ?_, fun st o m ch h => ?_, fun st o m h => ?_⟩
  · rw [notifyUpload_fst]
    exact mem_waiterSet_startWaitAll o m chs st ch (Or.inl h)
  · rw [notifyUpload_fst]
    exact h
  · unfold NotifyUpload
    rw [h]

/-- Witness for C2 at a concrete registry: two waiters registered before the
notify are both signalled, a fresh handle is not, and a notify on an empty
registry changes nothing. -/
theorem notifyUpload_signals_exactly_registered_witness :
    (5 ∈ (NotifyUpload (startWaitAll ⟨[], []⟩ "o" "m" [5, 6]) "o" "m").1
        ∧ 6 ∈ (NotifyUpload (startWaitAll ⟨[], []⟩ "o" "m" [5, 6]) "o" "m").1)
      ∧ 9 ∉ (NotifyUpload ⟨[("om", [5, 6])], []⟩ "o" "m").1
      ∧ NotifyUpload ⟨[], []⟩ "o" "m" = ([], ⟨[], []⟩) :=
  ⟨⟨notifyUpload_signals_exactly_registered.1 ⟨[], []⟩ "o" "m" [5, 6] 5 (by decide),
    notifyUpload_signals_exactly_registered.1 ⟨[], []⟩ "o" "m" [5, 6] 6 (by decide)⟩,
   notifyUpload_signals_exactly_registered.2.1 ⟨[("om", [5, 6])], []⟩ "o" "m" 9 (by decide),
   notifyUpload_signals_exactly_registered.2.2 ⟨[], []⟩ "o" "m" (by decide)⟩

/-- C3: whichever way `WaitForUpload` resolves (signalled or timed out), the
handle is removed from its key's waiter set, and the key is dropped from the
registry exactly when that removal emptied the set; in particular a
`StartWaitForUpload` followed by a `WaitForUpload` on a registry with no
entry for the key leaves the registry with no entry for the key. -/
theorem waitForUpload_removes_handle_and_key :
    (∀ (st : NotifierState) (ch : Chan) (o m : String) (sig : Bool),
        ch ∉ st.closed → (waiterSet st (o ++ m)).Nodup →
        ∃ st2, WaitForUpload st ch o m sig = GoOutcome.ok (sig, st2)
          ∧ ch ∉ waiterSet st2 (o ++ m)
          ∧ ((waiterSet st (o ++ m)).erase ch = [] →
               lookupSet st2.waiters (o ++ m) = none)
          ∧ ((waiterSet st (o ++ m)).erase ch ≠ [] →
               lookupSet st2.waiters (o ++ m) = some ((waiterSet st (o ++ m)).erase ch)))
    ∧ (∀ (st : NotifierState) (ch : Chan) (o m : String) (sig : Bool),
        ch ∉ st.closed → lookupSet st.waiters (o ++ m) = none →
        ∃ st2, WaitForUpload (StartWaitForUpload st o m ch) ch o m sig
                 = GoOutcome.ok (sig, st2)
          ∧ lookupSet st2.waiters (o ++ m) = none) := by
  refine ⟨fun st ch o m sig hcl hnd => waitForUpload_spec st ch o m sig hcl hnd,
          fun st ch o m sig hcl habs => ?_⟩
  have hset : waiterSet (StartWaitForUpload st o m ch) (o ++ m) = [ch] := by
    rw [waiterSet_start]
    unfold waiterSet
    rw [habs]
    simp [insertChan]
  obtain ⟨st2, heq, _, hkey, _⟩ :=
    waitForUpload_spec (StartWaitForUpload st o m ch) ch o m sig hcl
      (by rw [hset]; exact List.nodup_singleton ch)
  refine ⟨st2, heq, ?_⟩
  apply hkey
  rw [hset]
  simp

/-- Witness for C3 at a concrete registry: a lone waiter for key `"om"` is
cleaned up by its timed-out wait, and a start-then-wait cycle on an empty
registry leaves no entry behind. -/
theorem waitForUpload_removes_handle_and_key_witness :
    (∃ st2, WaitForUpload ⟨[("om", [7])], []⟩ 7 "o" "m" false
              = GoOutcome.ok (false, st2)
       ∧ 7 ∉ waiterSet st2 ("o" ++ "m")
       ∧ ((waiterSet (⟨[("om", [7])], []⟩ : NotifierState) ("o" ++ "m")).erase 7 = [] →
            lookupSet st2.waiters ("o" ++ "m") = none)
       ∧ ((waiterSet (⟨[("om", [7])], []⟩ : NotifierState) ("o" ++ "m")).erase 7 ≠ [] →
            lookupSet st2.waiters ("o" ++ "m")
              = some ((waiterSet (⟨[("om", [7])], []⟩ : NotifierState) ("o" ++ "m")).erase 7)))
    ∧ (∃ st2, WaitForUpload (StartWaitForUpload ⟨[], []⟩ "o" "m" 3) 3 "o" "m" true
                = GoOutcome.ok (true, st2)
         ∧ lookupSet st2.waiters ("o" ++ "m") = none) :=
  ⟨waitForUpload_removes_handle_and_key.1 ⟨[("om", [7])], []⟩ 7 "o" "m" false
     (by decide) (by decide),
   waitForUpload_removes_handle_and_key.2 ⟨[], []⟩ 3 "o" "m" true (by decide) (by decide)⟩

/-- C4: the code violates cancel-safety. Cancelling the same handle twice is
reachable (first cancel succeeds and leaves another waiter's entry in place);
the second cancel finds the key, and then unconditionally runs `close(ch)` on
the already-closed channel — in Go a runtime panic — instead of being a
no-op. -/
theorem cancelWait_second_cancel_panics :
    CancelWaitForUpload ⟨[("om", [1, 2])], []⟩ 1 "o" "m"
        = GoOutcome.ok ⟨[("om", [2])], [1]⟩
      ∧ CancelWaitForUpload ⟨[("om", [2])], [1]⟩ 1 "o" "m" = GoOutcome.panicked := by
  decide

/-- C5: the code violates the never-blocks guarantee. From a state with one
registered handle whose owner abandons waiting (the spec's own use case for
`cancelWait`), the interleaving in which `NotifyUpload` takes the registry
lock first is reachable in one step, and the resulting configuration is
stuck: the notifier holds the lock and is blocked on the unbuffered send, the
canceler is blocked acquiring the lock, and no further step is enabled, so
the notify never completes nor releases the lock. -/
theorem notifyUpload_deadlock_reachable :
    deadlockStuck ∈ sysSteps deadlockInit
      ∧ sysSteps deadlockStuck = []
      ∧ deadlockStuck.notifier ≠ NotifierPC.done
      ∧ deadlockStuck.lockHeldByNotifier = true := by
  decide

/-- C1 counterexample: a record that is already finalized (`sizeBytes = 5 > 0`)
but has an empty `location` makes `UploadComplete` return the not-found
error, not a success — the handler checks `media.Location == ""` before the
finalized check. -/
theorem uploadComplete_finalized_empty_location_404 :
    c1Record.sizeBytes > 0
      ∧ UploadComplete "localhost" "abc" c1Env = (ApiOutcome.notFound, noEffects) := by
  decide

/-- C1 (amended): for a record that is already finalized (`sizeBytes > 0`)
and has a non-empty `location`, an `UploadComplete` call that passes the
request-routing checks returns the empty success outcome and performs no
backend stat, no record mutation and no notification. -/
theorem uploadComplete_idempotent_noop (server mediaId : String)
    (env : UploadCompleteEnv) (media : MediaRecord)
    (hget : env.dbGet = some media) (hloc : media.location ≠ "")
    (hsize : media.sizeBytes > 0)
    (hroute : server = "" ∨ (env.serverOurs = true ∧ env.hostMatches = true)) :
    UploadComplete server mediaId env = (ApiOutcome.emptySuccess, noEffects) := by
  have hcond : ¬(server ≠ "" ∧ (env.serverOurs = false ∨ env.hostMatches = false)) := by
    rcases hroute with h | ⟨h1, h2⟩
    · simp [h]
    · simp [h1, h2]
  unfold UploadComplete
  rw [if_neg hcond, hget]
  simp [hloc, hsize]

/-- Witness for the amended C1: a concrete finalized record with a location
goes through `UploadComplete` as an effect-free empty success. -/
theorem uploadComplete_idempotent_noop_witness :
    UploadComplete "localhost" "abc" c1EnvLoc = (ApiOutcome.emptySuccess, noEffects) :=
  uploadComplete_idempotent_noop "localhost" "abc" c1EnvLoc c1RecordLoc rfl
    (by decide) (by decide) (Or.inr ⟨rfl, rfl⟩)

/-- C6 counterexample: with a `publicPrefix` of `"https://cdn.example"`, the
datastore reference's `GetDownloadURL` on location `"ab/cd1234"` and filename
`"pic.png"` returns the prefix joined with a slash to the requested filename,
not the character-for-character concatenation of the base with the object's
backend location. -/
theorem getDownloadURL_not_base_location_concat :
    GetDownloadURL "s3" true (some "https://cdn.example") none "ab/cd1234" "pic.png"
        = some ("https://cdn.example" ++ "/" ++ "pic.png")
      ∧ GetDownloadURL "s3" true (some "https://cdn.example") none "ab/cd1234" "pic.png"
        ≠ some ("https://cdn.example" ++ "ab/cd1234") := by
  decide

/-- C6 (amended): the datastores-package `DownloadOrRedirect` with a public
base URL configured redirects to exactly `publicBaseUrl ++ location`, while
the datastore reference's `GetDownloadURL` with a `publicPrefix` configured
produces `publicPrefix ++ "/" ++ filename` — a slash-joined filename, not
the backend location. -/
theorem redirect_target_shapes :
    (∀ (c : S3Cfg) (presigned : Option String) (loc : String),
        c.publicBaseUrl ≠ "" →
        DownloadOrRedirect "s3" (some c) presigned loc
          = DownloadResult.redirectTo (c.publicBaseUrl ++ loc))
    ∧ (∀ (p : String) (pr : Option String) (loc fn : String),
        GetDownloadURL "s3" true (some p) pr loc fn = some (p ++ "/" ++ fn)) := by
  constructor
  · intro c presigned loc h
    simp [DownloadOrRedirect, h]
  · intro p pr loc fn
    simp [GetDownloadURL]

/-- Witness for the amended C6 at the spec's own example: base
`"https://cdn.example/"` and location `"ab/cd1234"` redirect to their plain
concatenation, and the reference's URL is the slash-joined filename form. -/
theorem redirect_target_shapes_witness :
    DownloadOrRedirect "s3"
        (some { publicBaseUrl := "https://cdn.example/", redirectPresignURL := false })
        none "ab/cd1234"
      = DownloadResult.redirectTo ("https://cdn.example/" ++ "ab/cd1234")
    ∧ GetDownloadURL "s3" true (some "https://cdn.example") none "ab/cd1234" "pic.png"
      = some ("https://cdn.example" ++ "/" ++ "pic.png") :=
  ⟨redirect_target_shapes.1 _ none "ab/cd1234" (by decide),
   redirect_target_shapes.2 "https://cdn.example" none "ab/cd1234" "pic.png"⟩

/-- C7 counterexample: a datastore reference whose type string is not one of
file, s3 or ipfs hits the `panic("unknown datastore type")` branch of
`ObjectExists` instead of returning a boolean. -/
theorem objectExists_panics_on_unknown_type :
    ObjectExists "ceph" { fileExists := none, s3Created := false, s3Stat := none } "loc"
      = GoOutcome.panicked := by
  decide

/-- C7 (amended): for the three recognized backend types the existence check
always returns a boolean and never panics, and every backend error — a
failing file stat, a failed s3 datastore construction, a failing s3 object
stat — collapses to `false`; only an unrecognized type string panics. -/
theorem objectExists_total_on_known_types :
    (∀ (dsType : String) (env : ExistsEnv) (loc : String),
        dsType = "file" ∨ dsType = "s3" ∨ dsType = "ipfs" →
        ∃ b, ObjectExists dsType env loc = GoOutcome.ok b)
    ∧ (∀ (env : ExistsEnv) (loc : String),
        env.fileExists = none → ObjectExists "file" env loc = GoOutcome.ok false)
    ∧ (∀ (env : ExistsEnv) (loc : String),
        env.s3Created = false ∨ env.s3Stat = none →
        ObjectExists "s3" env loc = GoOutcome.ok false) := by
  refine ⟨fun dsType env loc h => ?_, fun env loc h => ?_, fun env loc h => ?_⟩
  · rcases h with h | h | h <;> subst h
    · cases hf : env.fileExists with
      | none => exact ⟨false, by simp [ObjectExists, hf]⟩
      | some b => exact ⟨b, by simp [ObjectExists, hf]⟩
    · cases hc : env.s3Created with
      | false => exact ⟨false, by simp [ObjectExists, hc]⟩
      | true => exact ⟨s3ObjectExists env.s3Stat, by simp [ObjectExists, hc]⟩
    · exact ⟨false, by simp [ObjectExists]⟩
  · simp [ObjectExists, h]
  · rcases h with h | h
    · simp [ObjectExists, h]
    · cases hc : env.s3Created <;> simp [ObjectExists, s3ObjectExists, h, hc]

/-- Witness for the amended C7: each recognized type yields a boolean, and
concrete backend failures yield `false`. -/
theorem objectExists_total_on_known_types_witness :
    (∃ b, ObjectExists "ipfs" { fileExists := none, s3Created := false, s3Stat := none } "x"
            = GoOutcome.ok b)
      ∧ ObjectExists "file" { fileExists := none, s3Created := false, s3Stat := none } "x"
          = GoOutcome.ok false
      ∧ ObjectExists "s3" { fileExists := none, s3Created := true, s3Stat := none } "x"
          = GoOutcome.ok false :=
  ⟨objectExists_total_on_known_types.1 "ipfs" _ "x" (Or.inr (Or.inr rfl)),
   objectExists_total_on_known_types.2.1 _ "x" rfl,
   objectExists_total_on_known_types.2.2 _ "x" (Or.inr rfl)⟩

/-- C10: the s3 existence check reports `false` for an object whose stat
succeeds with size 0, and in general returns `true` exactly when the stat
succeeded with size strictly greater than 0 — an existing empty object is
indistinguishable from an absent one. -/
theorem s3ObjectExists_empty_object_false :
    s3ObjectExists (some 0) = false
      ∧ (∀ s : Option Int, s3ObjectExists s = true ↔ ∃ n, s = some n ∧ 0 < n) := by
  refine ⟨rfl, fun s => ?_⟩
  cases s with
  | none => simp [s3ObjectExists]
  | some n => simp [s3ObjectExists]

/-- C8: a digest failure makes the pipeline delete the object at the
generated location and report the digest error — also when the upload task
failed too (digest priority) — and a successful descriptor is only returned
when neither the digest task nor the upload task failed. -/
theorem s3UploadFile_digest_failure_policy :
    (∀ (bytes : List Nat) (len : Int) (tempPath objectName : String)
        (hashFn : List Nat → String) (env : UploadEnv) (e : String),
        env.hashErr = some e →
        (s3UploadFile bytes len tempPath objectName hashFn env).result = Except.error e
          ∧ (s3UploadFile bytes len tempPath objectName hashFn env).deleted = [objectName])
    ∧ (∀ (bytes : List Nat) (len : Int) (tempPath objectName : String)
        (hashFn : List Nat → String) (env : UploadEnv) (desc : ObjectInfo),
        (s3UploadFile bytes len tempPath objectName hashFn env).result = Except.ok desc →
        env.hashErr = none ∧ (runUploadTask bytes len tempPath env).uploadErr = none) := by
  constructor
  · intro bytes len tempPath objectName hashFn env e h
    simp [s3UploadFile, h]
  · intro bytes len tempPath objectName hashFn env desc h
    unfold s3UploadFile at h
    simp only [] at h
    cases hh : env.hashErr with
    | some e =>
      rw [hh] at h
      simp at h
    | none =>
      rw [hh] at h
      cases hu : (runUploadTask bytes len tempPath env).uploadErr with
      | some e =>
        rw [hu] at h
        simp at h
      | none =>
        exact ⟨rfl, rfl⟩

/-- Witness for C8: with both the digest and the upload failing, the digest
error is the one reported and the object at the generated location is
deleted. -/
theorem s3UploadFile_digest_failure_policy_witness :
    (s3UploadFile [1, 2] 2 "" "ab/cd" c9Hash c8Env).result = Except.error "hash failed"
      ∧ (s3UploadFile [1, 2] 2 "" "ab/cd" c9Hash c8Env).deleted = ["ab/cd"] :=
  s3UploadFile_digest_failure_policy.1 [1, 2] 2 "" "ab/cd" c9Hash c8Env "hash failed" rfl

/-- C9: with a temp path configured and every external call succeeding, an
unknown-length run (declared length ≤ 0) produces the same descriptor — same
size, same digest — as the run of the identical bytes with the correct
length declared; the unknown-length run drains the stream to a temp file,
re-uploads exactly the input bytes with the learned length, and removes the
temp file; and once a temp file is created, it is removed whatever the
outcome of the reopen, the upload or the digest. -/
theorem s3UploadFile_unknown_length_equiv :
    (∀ (bytes : List Nat) (len : Int) (tempPath objectName : String)
        (hashFn : List Nat → String) (env : UploadEnv),
        env.tempCreateErr = none → env.copyErr = none → env.reopenErr = none →
        env.putErr = none → env.hashErr = none → len ≤ 0 → tempPath ≠ "" →
        (s3UploadFile bytes len tempPath objectName hashFn env).result
            = Except.ok { location := objectName, sha256Hash := hashFn bytes,
                          sizeBytes := (bytes.length : Int) }
          ∧ (s3UploadFile bytes (bytes.length : Int) tempPath objectName hashFn env).result
            = Except.ok { location := objectName, sha256Hash := hashFn bytes,
                          sizeBytes := (bytes.length : Int) }
          ∧ (s3UploadFile bytes len tempPath objectName hashFn env).backendPut
            = some (bytes, (bytes.length : Int))
          ∧ (s3UploadFile bytes len tempPath objectName hashFn env).tempCreated = true
          ∧ (s3UploadFile bytes len tempPath objectName hashFn env).tempRemoved = true)
    ∧ (∀ (bytes : List Nat) (len : Int) (tempPath objectName : String)
        (hashFn : List Nat → String) (env : UploadEnv),
        env.tempCreateErr = none → len ≤ 0 → tempPath ≠ "" →
        (s3UploadFile bytes len tempPath objectName hashFn env).tempRemoved = true) := by
  constructor
  · intro bytes len tempPath objectName hashFn env h1 h2 h3 h4 h5 hlen htp
    have hrun : runUploadTask bytes len tempPath env
        = { uploadErr := none, sizeBytes := (bytes.length : Int),
            backendPut := some (bytes, (bytes.length : Int)),
            tempCreated := true, tempRemoved := true } := by
      simp [runUploadTask, h1, h2, h3, h4, hlen, htp, List.take_length]
    have hrun2 : runUploadTask bytes (bytes.length : Int) tempPath env
        = { uploadErr := none, sizeBytes := (bytes.length : Int),
            backendPut := some (bytes, (bytes.length : Int)),
            tempCreated := true, tempRemoved := true }
        ∨ runUploadTask bytes (bytes.length : Int) tempPath env
        = { uploadErr := none, sizeBytes := (bytes.length : Int),
            backendPut := some (bytes, (bytes.length : Int)),
            tempCreated := false, tempRemoved := false } := by
      by_cases hb : bytes = []
      · subst hb
        left
        simp [runUploadTask, h1, h2, h3, h4, htp, List.take_length]
      · right
        have hlp : 0 < bytes.length := List.length_pos.mpr hb
        have hpos : ¬((bytes.length : Int) ≤ 0) := by
          omega
        unfold runUploadTask
        rw [if_neg hpos]
        simp [h4]
    refine ⟨?_, ?_, ?_, ?_, ?_⟩
    · simp [s3UploadFile, h5, hrun]
    · rcases hrun2 with hr | hr <;> simp [s3UploadFile, h5, hr]
    · simp [s3UploadFile, h5, hrun]
    · simp [s3UploadFile, h5, hrun]
    · simp [s3UploadFile, h5, hrun]
  · intro bytes len tempPath objectName hashFn env h1 hlen htp
    have hrem : (runUploadTask bytes len tempPath env).tempRemoved = true := by
      cases h3 : env.reopenErr <;> cases h4 : env.putErr <;>
        simp [runUploadTask, h1, h3, h4, hlen, htp]
    cases h5 : env.hashErr with
    | some e => simp [s3UploadFile, h5, hrem]
    | none =>
      cases hu : (runUploadTask bytes len tempPath env).uploadErr with
      | some e => simp [s3UploadFile, h5, hu, hrem]
      | none => simp [s3UploadFile, h5, hu, hrem]

/-- Witness for C9 at a concrete three-byte stream: the unknown-length run
(declared -1) and the correct-length run (declared 3) both succeed with size
3 and the same digest; the unknown-length run re-uploaded the full bytes
with the learned length 3 and created and removed its temp file. -/
theorem s3UploadFile_unknown_length_equiv_witness :
    (s3UploadFile [10, 20, 30] (-1) "/tmp" "ab/cd" c9Hash c9Env).result
        = Except.ok { location := "ab/cd", sha256Hash := "d", sizeBytes := 3 }
      ∧ (s3UploadFile [10, 20, 30] 3 "/tmp" "ab/cd" c9Hash c9Env).result
        = Except.ok { location := "ab/cd", sha256Hash := "d", sizeBytes := 3 }
      ∧ (s3UploadFile [10, 20, 30] (-1) "/tmp" "ab/cd" c9Hash c9Env).backendPut
        = some ([10, 20, 30], 3)
      ∧ (s3UploadFile [10, 20, 30] (-1) "/tmp" "ab/cd" c9Hash c9Env).tempCreated = true
      ∧ (s3UploadFile [10, 20, 30] (-1) "/tmp" "ab/cd" c9Hash c9Env).tempRemoved = true :=
  s3UploadFile_unknown_length_equiv.1 [10, 20, 30] (-1) "/tmp" "ab/cd" c9Hash c9Env
    rfl rfl rfl rfl rfl (by decide) (by decide)

end MMR
